import Mathlib

/-!
Verification development for the Git Phantom Scope analysis core and its
frontend display components.

The frontend components (`ScoreRadar`, `ArchetypeBadge`, `LanguageChart`)
are embedded directly from the TypeScript sources under
`frontend/components/features/`.  The backend scoring engine
(Dimension Scorer, Commit Pattern Analyzer, Archetype Classifier,
Aggregation Facade) is not part of the available sources; its definitions
below are modelled from the specification document, with the concrete
configuration constants chosen as named values (the specification leaves
their exact values open).
-/

namespace PhantomScope

/- ## Frontend embedding (from `frontend/lib/types.ts` and the components) -/

/-- From `frontend/lib/types.ts`: `ProfileScores`, the four dimension
scores as displayed by the frontend.  Numbers are modelled as rationals. -/
structure ProfileScores where
  activity : ℚ
  collaboration : ℚ
  stack_diversity : ℚ
  ai_savviness : ℚ

/-- JavaScript `Math.round`: rounds to the nearest integer, halves toward
positive infinity, i.e. `⌊x + 1/2⌋`. -/
def jsRound (x : ℚ) : ℤ := ⌊x + 1 / 2⌋

/-- From `ScoreRadar.tsx`:
`Math.round(Object.values(scores).reduce((a, b) => a + b, 0) / 4)`.
`Object.values` enumerates the four fields in declaration order and the
sum is accumulated by a left fold starting at 0. -/
def scoreRadarOverall (s : ProfileScores) : ℤ :=
  jsRound (([s.activity, s.collaboration, s.stack_diversity, s.ai_savviness].foldl
    (fun a b => a + b) 0) / 4)

/-- The arithmetic mean of the four dimension scores (the quantity the
claim about `ScoreRadar` refers to). -/
def meanOfScores (s : ProfileScores) : ℚ :=
  (s.activity + s.collaboration + s.stack_diversity + s.ai_savviness) / 4

/-- From `frontend/lib/types.ts`: `DeveloperArchetype` as consumed by the
frontend; `confidence` and `alternatives` are optional fields. -/
structure DeveloperArchetype where
  id : String
  name : String
  description : String
  confidence : Option ℚ
  alternatives : Option (List String)

/-- JavaScript truthiness of a number: `0` (and only `0`, for our
rational model) is falsy. -/
def jsTruthyNum (q : ℚ) : Bool := !(q == 0)

/-- From `ArchetypeBadge.tsx`:
`const confidence = archetype.confidence ? Math.round(archetype.confidence * 100) : null;`
An absent field is `undefined` (falsy), and a numeric field is used only
when truthy. -/
def displayedConfidence (a : DeveloperArchetype) : Option ℤ :=
  match a.confidence with
  | none => none
  | some q => if jsTruthyNum q then some (jsRound (q * 100)) else none

/-- From `frontend/lib/types.ts`: `LanguageStat`. -/
structure LanguageStat where
  name : String
  percentage : ℚ
  color : Option String

/-- From `LanguageChart.tsx`: `const topLanguages = languages.slice(0, 8);`. -/
def topLanguages (languages : List LanguageStat) : List LanguageStat :=
  languages.take 8

/-- From `LanguageChart.tsx`:
`const maxPercentage = Math.max(...topLanguages.map((l) => l.percentage), 1);`
`Math.max` over the spread list with the extra argument `1` is a right
fold of `max` with base value `1`. -/
def maxPercentage (languages : List LanguageStat) : ℚ :=
  ((topLanguages languages).map (fun l => l.percentage)).foldr max 1

/- ## Analysis core, modelled from the specification -/

/-- Modelled from the spec: a commit record — "timestamp, message text,
set of declared co-authors".  An unparseable timestamp is `none`
("unparseable timestamps are excluded from timing math but still counted
in totals"); a parseable one is modelled as seconds since an epoch. -/
structure CommitRecord where
  timestamp : Option ℤ
  message : String
  coauthors : List String
deriving DecidableEq

/-- Modelled from the spec: `ProfileSignals`, the normalized input.
Counts are natural numbers (a separate validation layer, below, maps raw
possibly-invalid fields into this type). -/
structure ProfileSignals where
  commit_count : ℕ
  active_days : ℕ
  streak_days : ℕ
  last_commit_age_days : ℕ
  repo_count : ℕ
  pr_opened : ℕ
  pr_merged : ℕ
  issues_opened : ℕ
  reviews_given : ℕ
  forks_received : ℕ
  org_count : ℕ
  languages : List (String × ℕ)
  tags : List String
  commits : List CommitRecord

/-- Modelled from the spec: `DimensionScores`, "four fields, each a float
constrained to [0, 100]". -/
structure DimensionScores where
  activity : ℝ
  collaboration : ℝ
  stack_diversity : ℝ
  ai_savviness : ℝ

/- ### Named configuration constants (the spec leaves exact values open) -/

def COMMIT_CAP : ℝ := 1000
def ACTIVE_DAYS_CAP : ℝ := 365
def STREAK_CAP : ℝ := 100
def PR_CAP : ℝ := 200
def REVIEW_CAP : ℝ := 100
def FORK_CAP : ℝ := 500
def TAG_CAP : ℝ := 20
def ORG_BONUS : ℝ := 10
def DECAY_HALF_LIFE : ℝ := 30
def MAX_LANG_CATEGORIES : ℝ := 10
def BURST_GAP_SECONDS : ℤ := 300
def BURST_MIN_RUN : ℕ := 3
def CONFIG_FILE_BONUS : ℝ := 5
def CONFIG_BONUS_CAP : ℝ := 15

/- ### Dimension Scorer primitives -/

/-- Clamp a real number into the interval `[0, 100]`; every dimension
formula in the spec ends with "clamped to [0,100]". -/
def clamp100 (x : ℝ) : ℝ := max 0 (min 100 x)

/-- Modelled from the spec: `log_scale(x, cap)` — "maps a nonnegative
count to [0,100] via a logarithmic (diminishing-returns) curve normalized
against a per-metric saturation constant cap, clamped at the bound". -/
noncomputable def logScale (x cap : ℝ) : ℝ :=
  if x ≤ 0 then 0 else min 100 (100 * Real.log (1 + x) / Real.log (1 + cap))

/-- Modelled from the spec: `time_decay_weight(age_days, half_life)` —
"exponential decay, weight = 0.5^(age_days / half_life)". -/
noncomputable def timeDecayWeight (age halfLife : ℝ) : ℝ :=
  (1 / 2 : ℝ) ^ (age / halfLife)

/-- Normalized byte shares of a language map ("language byte shares"). -/
noncomputable def languageShares (languages : List (String × ℕ)) : List ℝ :=
  let total : ℝ := (languages.map (fun l => (l.2 : ℝ))).sum
  languages.map (fun l => (l.2 : ℝ) / total)

/-- Modelled from the spec: `entropy(distribution)` — Shannon entropy of
the normalized share distribution, "rescaled to [0,100] by dividing by
the entropy of a uniform distribution over a fixed maximum category
count", clamped at the bound. -/
noncomputable def entropyScore (languages : List (String × ℕ)) : ℝ :=
  min 100 (100 * ((languageShares languages).map Real.negMulLog).sum /
    Real.log MAX_LANG_CATEGORIES)

/- ### Commit Pattern Analyzer -/

/-- The static vocabulary of known AI-tool identifiers (the nine tools
listed in the project documentation and the frontend's `TOOL_ICONS`). -/
def TOOL_VOCAB : List String :=
  ["copilot", "cursor", "windsurf", "aider", "claude", "chatgpt",
   "gemini", "tabnine", "codeium"]

/-- The static vocabulary of recognized AI-tool configuration filenames
(from the project documentation). -/
def CONFIG_VOCAB : List String :=
  [".github/copilot-instructions.md", ".cursorrules", ".windsurfrules",
   "CLAUDE.md", "AGENTS.md"]

/-- Case-insensitive substring test: `needle` occurs in `haystack` iff
splitting the lowercased haystack on the lowercased needle produces more
than one part. -/
def containsCI (haystack needle : String) : Bool :=
  (haystack.toLower.splitOn needle.toLower).length ≥ 2

/-- A commit matches a tool identifier when its message text or any
declared co-author matches it case-insensitively. -/
def commitMatchesTool (c : CommitRecord) (tool : String) : Bool :=
  containsCI c.message tool || c.coauthors.any (fun a => containsCI a tool)

/-- Modelled from the spec: "a tool is detected if any commit in the
whole window matches it; `detected_tools` is the union across all
commits" — always a subset of the static vocabulary. -/
def detectedTools (commits : List CommitRecord) : List String :=
  TOOL_VOCAB.filter (fun t => commits.any (fun c => commitMatchesTool c t))

/-- Modelled from the spec: recognized AI-tool configuration filenames
present.  The available material does not say where the filenames come
from; we model a hit as a mention of the filename in some commit
message, keeping the result a subset of the static vocabulary. -/
def configFilesDetected (commits : List CommitRecord) : List String :=
  CONFIG_VOCAB.filter (fun f => commits.any (fun c => containsCI c.message f))

/-- The parseable timestamps of a commit sequence. -/
def validTimes (commits : List CommitRecord) : List ℤ :=
  commits.filterMap (fun c => c.timestamp)

/-- The number of commits with parseable timestamps. -/
def countValidCommits (commits : List CommitRecord) : ℕ :=
  (validTimes commits).length

/-- Walk the sorted timestamps accumulating maximal runs of consecutive
gaps below `BURST_GAP_SECONDS`; a run contributes its commit count when
it has at least `BURST_MIN_RUN` commits. `prev` is the previous
timestamp, `runLen` the commit length of the current run, `acc` the
commits already inside completed burst runs. -/
def burstGo (prev : ℤ) (rest : List ℤ) (runLen acc : ℕ) : ℕ :=
  match rest with
  | [] => acc + (if BURST_MIN_RUN ≤ runLen then runLen else 0)
  | t :: ts =>
    if t - prev < BURST_GAP_SECONDS then
      burstGo t ts (runLen + 1) acc
    else
      burstGo t ts 1 (acc + (if BURST_MIN_RUN ≤ runLen then runLen else 0))

/-- Modelled from the spec: the number of commits lying inside burst
runs — "a burst run is a maximal consecutive subsequence where every gap
is below a fixed threshold and whose length meets a minimum run size". -/
def burstCommitCount (times : List ℤ) : ℕ :=
  match times with
  | [] => 0
  | t :: rest => burstGo t rest 1 0

/-- The fraction of the total history lying inside burst runs
(`commits_in_bursts / total_commits`); unparseable timestamps are still
counted in the total. -/
noncomputable def burstFraction (commits : List CommitRecord) : ℝ :=
  (burstCommitCount ((validTimes commits).mergeSort (fun a b => a ≤ b)) : ℝ) /
    (commits.length : ℝ)

/-- Modelled from the spec:
`burst_score = log_scale(100 × commits_in_bursts / total_commits, cap=100)`,
as a function of the burst fraction. -/
noncomputable def burstScoreOfFraction (f : ℝ) : ℝ := logScale (100 * f) 100

/-- Modelled from the spec: the burst score of a commit sequence;
"fewer than two valid commits yields burst_score = 0 deterministically". -/
noncomputable def burstScore (commits : List CommitRecord) : ℝ :=
  if countValidCommits commits < 2 then 0
  else burstScoreOfFraction (burstFraction commits)

/-- Tool-detection density: the fraction of commits matching some known
AI-tool identifier. -/
noncomputable def toolDensity (commits : List CommitRecord) : ℝ :=
  ((commits.filter (fun c => TOOL_VOCAB.any (fun t => commitMatchesTool c t))).length : ℝ) /
    (commits.length : ℝ)

/-- Modelled from the spec: the composite AI-indicator score, "combining
tool-detection density, burst_score, and config-file hits into one
composite indicator", kept in [0,100]. -/
noncomputable def compositeIndicator (commits : List CommitRecord) : ℝ :=
  clamp100 (50 * toolDensity commits + (3 / 10 : ℝ) * burstScore commits +
    20 * ((configFilesDetected commits).length : ℝ))

/-- Modelled from the spec: the four ordered usage buckets. -/
inductive UsageBucket where
  | none
  | light
  | moderate
  | heavy
deriving DecidableEq

/-- Modelled from the spec: "mapping it onto the four ordered buckets via
fixed, documented thresholds". -/
noncomputable def bucketOf (composite : ℝ) : UsageBucket :=
  if composite < 10 then .none
  else if composite < 40 then .light
  else if composite < 70 then .moderate
  else .heavy

/-- Modelled from the spec: the three confidence levels of `AIAnalysis`. -/
inductive ConfidenceLevel where
  | low
  | medium
  | high
deriving DecidableEq

/-- Modelled from the spec: "low with a single weak signal, medium/high
as independent corroborating signals accumulate (tool tag, burst
pattern, config file each count as independent evidence)". -/
noncomputable def confidenceLevelOf (commits : List CommitRecord) : ConfidenceLevel :=
  let signals :=
    (if detectedTools commits = [] then 0 else 1) +
    (if burstScore commits < 30 then 0 else 1) +
    (if configFilesDetected commits = [] then 0 else 1)
  if signals ≤ 1 then .low else if signals = 2 then .medium else .high

/-- Modelled from the spec: `AIAnalysis`, the Commit Pattern Analyzer's
output record. -/
structure AIAnalysis where
  overall_bucket : UsageBucket
  detected_tools : List String
  confidence : ConfidenceLevel
  burst_score : ℝ
  config_files_detected : List String

/-- Modelled from the spec: the Commit Pattern Analyzer — commit-record
sequence in, `AIAnalysis` out; no exception path. -/
noncomputable def analyzeCommits (commits : List CommitRecord) : AIAnalysis :=
  { overall_bucket := bucketOf (compositeIndicator commits)
    detected_tools := detectedTools commits
    confidence := confidenceLevelOf commits
    burst_score := burstScore commits
    config_files_detected := configFilesDetected commits }

/- ### Dimension Scorer blends -/

/-- Modelled from the spec: the recency component of Activity —
`time_decay_weight(last_commit_age_days)`, scaled onto [0,100].  With no
commits at all there is no last commit, so the recency signal is absent
and contributes zero (the spec's boundary property: all-zero signals
yield all-zero dimension scores). -/
noncomputable def recencyTerm (s : ProfileSignals) : ℝ :=
  if s.commit_count = 0 then 0
  else 100 * timeDecayWeight (s.last_commit_age_days : ℝ) DECAY_HALF_LIFE

/-- Modelled from the spec: Activity — "fixed-weight blend of
log_scale(commit_count), log_scale(active_days), a streak-derived term,
and time_decay_weight(last_commit_age_days); weights sum to 1.0, result
clamped to [0,100]". -/
noncomputable def activityScore (s : ProfileSignals) : ℝ :=
  clamp100 (0.4 * logScale (s.commit_count : ℝ) COMMIT_CAP +
    0.25 * logScale (s.active_days : ℝ) ACTIVE_DAYS_CAP +
    0.15 * logScale (s.streak_days : ℝ) STREAK_CAP +
    0.2 * recencyTerm s)

/-- Modelled from the spec: Collaboration — "fixed-weight blend of
log_scale(pr_opened + pr_merged), log_scale(reviews_given),
log_scale(forks_received), plus a bounded additive bonus for
org_count > 0; clamped to [0,100]". -/
noncomputable def collaborationScore (s : ProfileSignals) : ℝ :=
  clamp100 (0.5 * logScale ((s.pr_opened : ℝ) + (s.pr_merged : ℝ)) PR_CAP +
    0.3 * logScale (s.reviews_given : ℝ) REVIEW_CAP +
    0.2 * logScale (s.forks_received : ℝ) FORK_CAP +
    (if 0 < s.org_count then ORG_BONUS else 0))

/-- Modelled from the spec: Stack Diversity — "weighted blend of
entropy(language byte shares) and log_scale(count of distinct
framework/topic tags); clamped to [0,100]". -/
noncomputable def stackDiversityScore (s : ProfileSignals) : ℝ :=
  clamp100 (0.7 * entropyScore s.languages +
    0.3 * logScale ((s.tags.dedup.length : ℝ)) TAG_CAP)

/-- Modelled from the spec: AI-Savviness — "output of the Commit Pattern
Analyzer's composite AI-indicator score, plus a bounded additive bonus
per recognized AI-tool configuration filename present; clamped". -/
noncomputable def aiSavvinessScore (commits : List CommitRecord) : ℝ :=
  clamp100 (compositeIndicator commits +
    min (CONFIG_FILE_BONUS * ((configFilesDetected commits).length : ℝ))
      CONFIG_BONUS_CAP)

/-- Modelled from the spec: the Dimension Scorer's public contract —
`ProfileSignals` in, `DimensionScores` out (AI-Savviness consumes the
Commit Pattern Analyzer's composite indicator). -/
noncomputable def dimensionScores (s : ProfileSignals) : DimensionScores :=
  { activity := activityScore s
    collaboration := collaborationScore s
    stack_diversity := stackDiversityScore s
    ai_savviness := aiSavvinessScore s.commits }

/- ### Archetype Classifier -/

/-- Modelled from the spec: the ten fixed archetype identifiers (the ids
also appear verbatim in the frontend's `ARCHETYPE_ICONS`). -/
inductive ArchetypeId where
  | ai_indie_hacker
  | open_source_maintainer
  | full_stack_polyglot
  | backend_architect
  | frontend_craftsman
  | devops_specialist
  | data_scientist
  | security_sentinel
  | rising_developer
  | code_explorer
deriving DecidableEq

/-- Modelled from the spec: the ecosystem tag inferred from the
language/framework mix. -/
inductive Ecosystem where
  | backend
  | frontend
  | devops
  | data
  | security
deriving DecidableEq

/-- Modelled from the spec: the auxiliary categorical signals the
classifier consumes besides the dimension scores. -/
structure AuxSignals where
  ecosystem : Option Ecosystem
  youngAccount : Bool

/-- Modelled from the spec: one archetype-affinity record — "a weighted
linear combination of the four dimension scores plus bounded
bonus/penalty terms tied to ecosystem or recency tags". -/
structure Archetype where
  id : ArchetypeId
  wAct : ℝ
  wCol : ℝ
  wDiv : ℝ
  wAI : ℝ
  bonus : AuxSignals → ℝ

/-- The affinity of an archetype for given dimension scores and
auxiliary signals. -/
noncomputable def affinity (a : Archetype) (s : DimensionScores) (aux : AuxSignals) : ℝ :=
  a.wAct * s.activity + a.wCol * s.collaboration + a.wDiv * s.stack_diversity +
    a.wAI * s.ai_savviness + a.bonus aux

def ECO_BONUS : ℝ := 15
def YOUNG_BONUS : ℝ := 15
def AFFINITY_FLOOR : ℝ := 10
def CLOSENESS_THRESHOLD : ℝ := 5
def MARGIN_SATURATION : ℝ := 30
noncomputable def MIN_CONFIDENCE : ℝ := 1 / 20

/-- Modelled from the spec: the per-archetype affinity record of each of
the ten fixed archetypes (weights over the four dimensions plus the
bounded bonus rule tied to ecosystem or recency tags). -/
noncomputable def archetypeOf : ArchetypeId → Archetype
  | .ai_indie_hacker => ⟨.ai_indie_hacker, 0.3, 0, 0.1, 0.6, fun _ => 0⟩
  | .open_source_maintainer => ⟨.open_source_maintainer, 0.4, 0.6, 0, 0, fun _ => 0⟩
  | .full_stack_polyglot => ⟨.full_stack_polyglot, 0.2, 0.2, 0.6, 0, fun _ => 0⟩
  | .backend_architect => ⟨.backend_architect, 0.5, 0.2, 0.3, 0,
      fun aux => if aux.ecosystem = some .backend then ECO_BONUS else 0⟩
  | .frontend_craftsman => ⟨.frontend_craftsman, 0.5, 0.2, 0.3, 0,
      fun aux => if aux.ecosystem = some .frontend then ECO_BONUS else 0⟩
  | .devops_specialist => ⟨.devops_specialist, 0.5, 0.2, 0.3, 0,
      fun aux => if aux.ecosystem = some .devops then ECO_BONUS else 0⟩
  | .data_scientist => ⟨.data_scientist, 0.3, 0.2, 0.5, 0,
      fun aux => if aux.ecosystem = some .data then ECO_BONUS else 0⟩
  | .security_sentinel => ⟨.security_sentinel, 0.3, 0.3, 0.4, 0,
      fun aux => if aux.ecosystem = some .security then ECO_BONUS else 0⟩
  | .rising_developer => ⟨.rising_developer, 0.7, 0.1, 0.1, 0.1,
      fun aux => if aux.youngAccount then YOUNG_BONUS else 0⟩
  | .code_explorer => ⟨.code_explorer, 0.25, 0.25, 0.25, 0.25, fun _ => 0⟩

/-- Modelled from the spec: the fixed, ordered table of archetype
affinity records; the table order is the tie-break priority order. -/
noncomputable def archetypeTable : List Archetype :=
  [archetypeOf .ai_indie_hacker,
   archetypeOf .open_source_maintainer,
   archetypeOf .full_stack_polyglot,
   archetypeOf .backend_architect,
   archetypeOf .frontend_craftsman,
   archetypeOf .devops_specialist,
   archetypeOf .data_scientist,
   archetypeOf .security_sentinel,
   archetypeOf .rising_developer,
   archetypeOf .code_explorer]

/-- Modelled from the spec: `ArchetypeResult`. -/
structure ArchetypeResult where
  archetype : ArchetypeId
  confidence : ℝ
  alternatives : List ArchetypeId

/-- The fallback result: "if no affinity clears a minimum floor, a
designated fallback archetype is returned with minimal confidence"
(`code_explorer` is documented as the fallback archetype). -/
noncomputable def fallbackResult : ArchetypeResult :=
  ⟨.code_explorer, MIN_CONFIDENCE, []⟩

/-- The table ranked by descending affinity; insertion sort is stable,
so exact ties keep the fixed table (priority) order. -/
noncomputable def rankedArchetypes (s : DimensionScores) (aux : AuxSignals) :
    List Archetype :=
  List.insertionSort (fun a b => affinity b s aux ≤ affinity a s aux) archetypeTable

/-- Modelled from the spec: the Archetype Classifier — evaluates all ten
affinities, picks the maximum (ties broken by table order via stable
sorting), derives confidence from the margin to the runner-up, and
surfaces at most two alternatives lying within the closeness threshold
of the top score. -/
noncomputable def classify (s : DimensionScores) (aux : AuxSignals) : ArchetypeResult :=
  match rankedArchetypes s aux with
  | [] => fallbackResult
  | top :: rest =>
    if affinity top s aux < AFFINITY_FLOOR then fallbackResult
    else
      { archetype := top.id
        confidence := min 1
          ((affinity top s aux -
            ((rest.head?.map (fun b => affinity b s aux)).getD (affinity top s aux))) /
            MARGIN_SATURATION)
        alternatives :=
          ((rest.filter (fun b =>
              decide (affinity top s aux - affinity b s aux ≤ CLOSENESS_THRESHOLD))).take 2).map
            Archetype.id }

/- ### Aggregation Facade -/

/-- Modelled from the spec: the ecosystem tag "inferred from
language/framework mix" — the first matching ecosystem keyword among the
framework/topic tags. -/
def inferEcosystem (tags : List String) : Option Ecosystem :=
  if tags.contains "backend" then some .backend
  else if tags.contains "frontend" then some .frontend
  else if tags.contains "devops" then some .devops
  else if tags.contains "data-science" then some .data
  else if tags.contains "security" then some .security
  else none

/-- The auxiliary categorical signals derived from one
`ProfileSignals` instance (the spec's "young-account tag" is modelled as
the presence of that tag). -/
def auxOf (s : ProfileSignals) : AuxSignals :=
  ⟨inferEcosystem s.tags, s.tags.contains "young-account"⟩

/-- Modelled from the spec: the composite result of one engine
invocation — `{DimensionScores, AIAnalysis, ArchetypeResult}`. -/
structure AnalysisResult where
  scores : DimensionScores
  ai_analysis : AIAnalysis
  archetype : ArchetypeResult

/-- Modelled from the spec: the Aggregation Facade.  `asOf` is the
ambient caller-supplied as-of timestamp; per the spec the facade has "no
hidden clock dependence beyond explicit age/recency fields already
computed relative to a caller-supplied as-of timestamp", so the ambient
clock is never read. -/
noncomputable def analyzeProfile (_asOf : ℤ) (s : ProfileSignals) : AnalysisResult :=
  { scores := dimensionScores s
    ai_analysis := analyzeCommits s.commits
    archetype := classify (dimensionScores s) (auxOf s) }

/- ### Input validation (Dimension Scorer error handling) -/

/-- A raw, not yet validated field value: a number, a value of a wrong
type (modelled by text), or an absent optional field. -/
inductive RawValue where
  | num (n : ℤ)
  | text (str : String)
  | missing
deriving DecidableEq

/-- Modelled from the spec: `InvalidSignalError` — carries only the name
of the offending field, never its value. -/
structure InvalidSignalError where
  field : String
deriving DecidableEq

/-- A raw value is invalid when it has an invalid type or an
out-of-domain value (a negative count). -/
def isInvalidValue : RawValue → Bool
  | .num n => n < 0
  | .text _ => true
  | .missing => false

/-- Modelled from the spec: validation of one named input field —
"missing optional numeric fields are treated as zero, never fail the
call.  A field with an invalid type or out-of-domain value (e.g.,
negative count) raises an InvalidSignalError naming only the field,
never its value". -/
def validateField (name : String) : RawValue → Except InvalidSignalError ℕ
  | .missing => .ok 0
  | .num n => if n < 0 then .error ⟨name⟩ else .ok n.toNat
  | .text _ => .error ⟨name⟩

/-- The raw numeric input fields of the Dimension Scorer, before
validation. -/
structure RawSignals where
  commit_count : RawValue
  active_days : RawValue
  streak_days : RawValue
  last_commit_age_days : RawValue
  repo_count : RawValue
  pr_opened : RawValue
  pr_merged : RawValue
  issues_opened : RawValue
  reviews_given : RawValue
  forks_received : RawValue
  org_count : RawValue
deriving DecidableEq

/-- Validation of a full raw record into `ProfileSignals`; the first
offending field aborts the call with an `InvalidSignalError`. -/
def validateSignals (r : RawSignals) (languages : List (String × ℕ))
    (tags : List String) (commits : List CommitRecord) :
    Except InvalidSignalError ProfileSignals := do
  let cc ← validateField "commit_count" r.commit_count
  let ad ← validateField "active_days" r.active_days
  let sd ← validateField "streak_days" r.streak_days
  let la ← validateField "last_commit_age_days" r.last_commit_age_days
  let rc ← validateField "repo_count" r.repo_count
  let po ← validateField "pr_opened" r.pr_opened
  let pm ← validateField "pr_merged" r.pr_merged
  let io ← validateField "issues_opened" r.issues_opened
  let rg ← validateField "reviews_given" r.reviews_given
  let fr ← validateField "forks_received" r.forks_received
  let oc ← validateField "org_count" r.org_count
  pure ⟨cc, ad, sd, la, rc, po, pm, io, rg, fr, oc, languages, tags, commits⟩

/-- The all-missing raw record. -/
def allMissingRaw : RawSignals :=
  ⟨.missing, .missing, .missing, .missing, .missing, .missing, .missing,
   .missing, .missing, .missing, .missing⟩

/-- The all-zero `ProfileSignals` input. -/
def zeroSignals : ProfileSignals :=
  ⟨0, 0, 0, 0, 0, 0, 0, 0, 0, 0, 0, [], [], []⟩

/- ## Helper lemmas -/

lemma le_foldr_max (l : List ℚ) (init : ℚ) : init ≤ l.foldr max init := by
  induction l with
  | nil => exact le_refl init
  | cons a t ih => exact le_trans ih (le_max_right a _)

lemma mem_le_foldr_max (init x : ℚ) :
    ∀ l : List ℚ, x ∈ l → x ≤ l.foldr max init := by
  intro l
  induction l with
  | nil => intro hx; cases hx
  | cons a t ih =>
    intro hx
    rcases List.mem_cons.mp hx with rfl | h
    · exact le_max_left x _
    · exact le_trans (ih h) (le_max_right a _)

lemma clamp100_nonneg (x : ℝ) : 0 ≤ clamp100 x := le_max_left 0 _

lemma clamp100_le_100 (x : ℝ) : clamp100 x ≤ 100 :=
  max_le (by norm_num) (min_le_left 100 x)

lemma clamp100_mono {x y : ℝ} (h : x ≤ y) : clamp100 x ≤ clamp100 y :=
  max_le_max (le_refl 0) (min_le_min (le_refl 100) h)

lemma logScale_nonneg (x cap : ℝ) (hcap : 0 < cap) : 0 ≤ logScale x cap := by
  unfold logScale
  split
  · exact le_refl 0
  · refine le_min (by norm_num) ?_
    have hx : (0 : ℝ) ≤ Real.log (1 + x) := Real.log_nonneg (by linarith)
    have hc : (0 : ℝ) ≤ Real.log (1 + cap) := Real.log_nonneg (by linarith)
    positivity

lemma logScale_mono (cap : ℝ) (hcap : 0 < cap) {x y : ℝ} (hxy : x ≤ y) :
    logScale x cap ≤ logScale y cap := by
  unfold logScale
  by_cases hy : y ≤ 0
  · rw [if_pos (le_trans hxy hy), if_pos hy]
  · push_neg at hy
    rw [if_neg (not_le.mpr hy)]
    by_cases hx : x ≤ 0
    · rw [if_pos hx]
      have := logScale_nonneg y cap hcap
      unfold logScale at this
      rwa [if_neg (not_le.mpr hy)] at this
    · push_neg at hx
      rw [if_neg (not_le.mpr hx)]
      refine min_le_min (le_refl 100) ?_
      have hlogc : (0 : ℝ) < Real.log (1 + cap) := Real.log_pos (by linarith)
      have hlog : Real.log (1 + x) ≤ Real.log (1 + y) :=
        Real.log_le_log (by linarith) (by linarith)
      gcongr

lemma timeDecayWeight_nonneg (age halfLife : ℝ) : 0 ≤ timeDecayWeight age halfLife := by
  unfold timeDecayWeight
  positivity

lemma recencyTerm_nonneg (s : ProfileSignals) : 0 ≤ recencyTerm s := by
  unfold recencyTerm
  split
  · exact le_refl 0
  · have := timeDecayWeight_nonneg (s.last_commit_age_days : ℝ) DECAY_HALF_LIFE
    linarith

/- ## Theorems about the frontend components -/

/-- C8: for every `ProfileScores` value with all four numeric fields
present, the overall score displayed by `ScoreRadar` equals the
arithmetic mean of the four dimension scores rounded with `Math.round`. -/
theorem c8_score_radar_overall_is_rounded_mean (s : ProfileScores) :
    scoreRadarOverall s = jsRound (meanOfScores s) := by
  have h : ([s.activity, s.collaboration, s.stack_diversity, s.ai_savviness].foldl
      (fun a b => a + b) 0) / 4 = meanOfScores s := by
    simp only [List.foldl, meanOfScores]
    ring
  rw [scoreRadarOverall, h]

/-- C9: an archetype whose `confidence` field is exactly `0` renders no
confidence percentage in `ArchetypeBadge` (the displayed confidence is
`null`), identically to an archetype whose `confidence` field is absent,
because `0` is falsy in JavaScript. -/
theorem c9_zero_confidence_renders_nothing (a b : DeveloperArchetype)
    (ha : a.confidence = some 0) (hb : b.confidence = none) :
    displayedConfidence a = none ∧ displayedConfidence b = none ∧
      displayedConfidence a = displayedConfidence b := by
  simp [displayedConfidence, ha, hb, jsTruthyNum]

theorem c9_zero_confidence_renders_nothing_witness :
    displayedConfidence ⟨"rising_developer", "Rising Developer", "", some 0, none⟩ = none ∧
      displayedConfidence ⟨"rising_developer", "Rising Developer", "", none, none⟩ = none ∧
      displayedConfidence ⟨"rising_developer", "Rising Developer", "", some 0, none⟩ =
        displayedConfidence ⟨"rising_developer", "Rising Developer", "", none, none⟩ :=
  c9_zero_confidence_renders_nothing
    ⟨"rising_developer", "Rising Developer", "", some 0, none⟩
    ⟨"rising_developer", "Rising Developer", "", none, none⟩ rfl rfl

/-- C10: `LanguageChart` renders at most the first 8 entries of the
input list (a prefix of length at most 8), and `maxPercentage` is at
least 1 and bounds every shown percentage, so the relative bar width
`percentage / maxPercentage` is always well defined — even for an empty
list or all-zero percentages. -/
theorem c10_language_chart_safe (ls : List LanguageStat) :
    (topLanguages ls).length ≤ 8 ∧ topLanguages ls <+: ls ∧
      1 ≤ maxPercentage ls ∧
      ∀ l ∈ topLanguages ls, l.percentage ≤ maxPercentage ls := by
  refine ⟨?_, ?_, ?_, ?_⟩
  · simp only [topLanguages]
    exact List.length_take_le 8 ls
  · exact List.take_prefix 8 ls
  · exact le_foldr_max _ 1
  · intro l hl
    exact mem_le_foldr_max 1 l.percentage _ (List.mem_map_of_mem (fun x => x.percentage) hl)

/- ## Theorems about the analysis core -/

/-- C1: for every `ProfileSignals` input, each of the four fields of the
resulting `DimensionScores` lies in `[0, 100]`, regardless of how large
the input counts are (every ℕ-valued input is a valid signal record). -/
theorem c1_dimension_scores_bounded (asOf : ℤ) (s : ProfileSignals) :
    (0 ≤ (analyzeProfile asOf s).scores.activity ∧
      (analyzeProfile asOf s).scores.activity ≤ 100) ∧
    (0 ≤ (analyzeProfile asOf s).scores.collaboration ∧
      (analyzeProfile asOf s).scores.collaboration ≤ 100) ∧
    (0 ≤ (analyzeProfile asOf s).scores.stack_diversity ∧
      (analyzeProfile asOf s).scores.stack_diversity ≤ 100) ∧
    (0 ≤ (analyzeProfile asOf s).scores.ai_savviness ∧
      (analyzeProfile asOf s).scores.ai_savviness ≤ 100) := by
  simp only [analyzeProfile, dimensionScores, activityScore, collaborationScore,
    stackDiversityScore, aiSavvinessScore]
  exact ⟨⟨clamp100_nonneg _, clamp100_le_100 _⟩, ⟨clamp100_nonneg _, clamp100_le_100 _⟩,
    ⟨clamp100_nonneg _, clamp100_le_100 _⟩, ⟨clamp100_nonneg _, clamp100_le_100 _⟩⟩

/-- C2: the aggregation facade is deterministic — identical
`ProfileSignals` input yields identical composite output, with no
dependence on the ambient clock (the as-of timestamp argument is never
read; all age/recency fields are already part of the input). -/
theorem c2_facade_deterministic (asOf₁ asOf₂ : ℤ) (s : ProfileSignals) :
    analyzeProfile asOf₁ s = analyzeProfile asOf₂ s := rfl

/-- C5: increasing `commit_count` while holding every other field fixed
never decreases the Activity dimension score. -/
theorem c5_activity_monotone_in_commit_count (s : ProfileSignals) (c₁ c₂ : ℕ)
    (h : c₁ ≤ c₂) :
    activityScore { s with commit_count := c₁ } ≤
      activityScore { s with commit_count := c₂ } := by
  unfold activityScore
  apply clamp100_mono
  have h1 : logScale (c₁ : ℝ) COMMIT_CAP ≤ logScale (c₂ : ℝ) COMMIT_CAP :=
    logScale_mono COMMIT_CAP (by norm_num [COMMIT_CAP]) (by exact_mod_cast h)
  have h2 : recencyTerm { s with commit_count := c₁ } ≤
      recencyTerm { s with commit_count := c₂ } := by
    unfold recencyTerm
    by_cases hc1 : c₁ = 0
    · subst hc1
      by_cases hc2 : c₂ = 0
      · subst hc2
        exact le_refl _
      · rw [if_pos rfl, if_neg hc2]
        have := timeDecayWeight_nonneg (s.last_commit_age_days : ℝ) DECAY_HALF_LIFE
        linarith
    · have hc2 : c₂ ≠ 0 := fun h0 => hc1 (Nat.le_zero.mp (h0 ▸ h))
      simp only [if_neg hc1, if_neg hc2, le_refl]
  simp only []
  linarith

theorem c5_activity_monotone_in_commit_count_witness :
    (0 : ℕ) ≤ 5 ∧
      activityScore { zeroSignals with commit_count := 0 } ≤
        activityScore { zeroSignals with commit_count := 5 } :=
  ⟨by decide, c5_activity_monotone_in_commit_count zeroSignals 0 5 (by decide)⟩

/-- C7: the Dimension Scorer's validation raises an `InvalidSignalError`
exactly when a field has an invalid type or an out-of-domain value (a
negative count); the error names only the offending field and never its
value (the raised error is the constant `⟨name⟩`, independent of the
offending value); a missing optional numeric field is treated as zero
and never fails the call (in particular the all-missing record validates
to the all-zero signals). -/
theorem c7_invalid_signal_error_semantics (name : String) (v : RawValue) :
    validateField name .missing = .ok 0 ∧
      ((∃ e, validateField name v = .error e) ↔ isInvalidValue v = true) ∧
      (isInvalidValue v = true → validateField name v = .error ⟨name⟩) ∧
      validateSignals allMissingRaw [] [] [] = .ok zeroSignals := by
  refine ⟨rfl, ⟨?_, ?_⟩, ?_, rfl⟩
  · rintro ⟨e, he⟩
    cases v with
    | num n =>
      by_cases hn : n < 0
      · simp [isInvalidValue, hn]
      · simp [validateField, hn] at he
    | text str => simp [isInvalidValue]
    | missing => cases he
  · intro hv
    cases v with
    | num n =>
      have hn : n < 0 := by simpa [isInvalidValue] using hv
      exact ⟨⟨name⟩, by simp [validateField, hn]⟩
    | text str => exact ⟨⟨name⟩, rfl⟩
    | missing => simp [isInvalidValue] at hv
  · intro hv
    cases v with
    | num n =>
      have hn : n < 0 := by simpa [isInvalidValue] using hv
      simp [validateField, hn]
    | text str => rfl
    | missing => simp [isInvalidValue] at hv

theorem c7_invalid_signal_error_semantics_witness :
    isInvalidValue (.num (-1)) = true ∧
      validateField "commit_count" (.num (-1)) = .error ⟨"commit_count"⟩ :=
  ⟨by decide,
    (c7_invalid_signal_error_semantics "commit_count" (.num (-1))).2.2.1 (by decide)⟩

/-- C4: the Commit Pattern Analyzer returns `burst_score = 0` for every
commit sequence with fewer than two parseable timestamps; otherwise the
burst score is the fixed saturating function of the fraction of history
inside burst runs, and that function tends to 100 as the fraction tends
to 100%. -/
theorem c4_burst_score_behavior (cs : List CommitRecord) :
    (countValidCommits cs < 2 → (analyzeCommits cs).burst_score = 0) ∧
      (2 ≤ countValidCommits cs →
        (analyzeCommits cs).burst_score = burstScoreOfFraction (burstFraction cs)) ∧
      Filter.Tendsto burstScoreOfFraction (nhds 1) (nhds 100) := by
  refine ⟨?_, ?_, ?_⟩
  · intro h
    simp only [analyzeCommits, burstScore]
    rw [if_pos h]
  · intro h
    simp only [analyzeCommits, burstScore]
    rw [if_neg (not_lt.mpr h)]
  · have hlog : (0 : ℝ) < Real.log (1 + 100) := Real.log_pos (by norm_num)
    have hcont : ContinuousAt
        (fun f : ℝ => min 100 (100 * Real.log (1 + 100 * f) / Real.log (1 + 100))) 1 := by
      have hc : ContinuousAt (fun f : ℝ => 1 + 100 * f) 1 :=
        (continuous_const.add (continuous_const.mul continuous_id)).continuousAt
      have h1 : ContinuousAt (fun f : ℝ => Real.log (1 + 100 * f)) 1 :=
        hc.log (by norm_num)
      exact continuousAt_const.min ((h1.const_mul 100).div_const _)
    have heq : burstScoreOfFraction =ᶠ[nhds (1 : ℝ)]
        (fun f : ℝ => min 100 (100 * Real.log (1 + 100 * f) / Real.log (1 + 100))) := by
      filter_upwards [eventually_gt_nhds (show (0 : ℝ) < 1 by norm_num)] with f hf
      unfold burstScoreOfFraction logScale
      rw [if_neg (by nlinarith)]
    have hval : min (100 : ℝ) (100 * Real.log (1 + 100 * 1) / Real.log (1 + 100)) = 100 := by
      rw [show (1 + 100 * 1 : ℝ) = 1 + 100 by norm_num, mul_div_assoc]
      rw [div_self (ne_of_gt hlog), mul_one, min_self]
    have ht := Filter.Tendsto.congr' heq.symm hcont.tendsto
    rw [hval] at ht
    exact ht

theorem c4_burst_score_behavior_witness :
    countValidCommits [] < 2 ∧ (analyzeCommits []).burst_score = 0 ∧
      2 ≤ countValidCommits [⟨some 0, "", []⟩, ⟨some 1000, "", []⟩] ∧
      (analyzeCommits [⟨some 0, "", []⟩, ⟨some 1000, "", []⟩]).burst_score =
        burstScoreOfFraction (burstFraction [⟨some 0, "", []⟩, ⟨some 1000, "", []⟩]) :=
  ⟨by decide, (c4_burst_score_behavior []).1 (by decide), by decide,
    (c4_burst_score_behavior [⟨some 0, "", []⟩, ⟨some 1000, "", []⟩]).2.1 (by decide)⟩

lemma archetypeOf_id (a : Archetype) (ha : a ∈ archetypeTable) :
    archetypeOf a.id = a := by
  fin_cases ha <;> rfl

lemma table_ids_nodup : (archetypeTable.map Archetype.id).Nodup := by decide

lemma mem_of_mem_ranked {s : DimensionScores} {aux : AuxSignals} {b : Archetype}
    (hb : b ∈ rankedArchetypes s aux) : b ∈ archetypeTable :=
  (List.perm_insertionSort _ archetypeTable).subset hb

lemma ranked_sorted (s : DimensionScores) (aux : AuxSignals) :
    (rankedArchetypes s aux).Sorted
      (fun a b => affinity b s aux ≤ affinity a s aux) := by
  haveI : IsTotal Archetype (fun a b => affinity b s aux ≤ affinity a s aux) :=
    ⟨fun a b => le_total _ _⟩
  haveI : IsTrans Archetype (fun a b => affinity b s aux ≤ affinity a s aux) :=
    ⟨fun _ _ _ h1 h2 => le_trans h2 h1⟩
  exact List.sorted_insertionSort _ archetypeTable

lemma ranked_ids_nodup (s : DimensionScores) (aux : AuxSignals) :
    ((rankedArchetypes s aux).map Archetype.id).Nodup :=
  (((List.perm_insertionSort _ archetypeTable).map Archetype.id).nodup_iff).mpr
    table_ids_nodup

/-- C3: for every classifier output, the alternatives list has length at
most two, is sorted by descending affinity, never contains the chosen
primary archetype id, and every listed alternative lies within the fixed
closeness threshold of the top affinity (so when no candidate is that
close, the list is empty). -/
theorem c3_alternatives_invariants (s : DimensionScores) (aux : AuxSignals) :
    (classify s aux).alternatives.length ≤ 2 ∧
      (classify s aux).archetype ∉ (classify s aux).alternatives ∧
      (classify s aux).alternatives.Sorted
        (fun i j => affinity (archetypeOf j) s aux ≤ affinity (archetypeOf i) s aux) ∧
      (∀ i ∈ (classify s aux).alternatives,
        affinity (archetypeOf (classify s aux).archetype) s aux -
          affinity (archetypeOf i) s aux ≤ CLOSENESS_THRESHOLD) := by
  unfold classify
  split
  · simp [fallbackResult, List.Sorted]
  · rename_i top rest heq
    split
    · simp [fallbackResult, List.Sorted]
    · rename_i hfloor
      simp only []
      have htop_mem : top ∈ archetypeTable :=
        mem_of_mem_ranked (heq ▸ List.mem_cons_self top rest)
      have hrest_mem : ∀ b ∈ rest, b ∈ archetypeTable := fun b hb =>
        mem_of_mem_ranked (heq ▸ List.mem_cons_of_mem top hb)
      have htake_mem : ∀ b ∈ (rest.filter (fun b =>
          decide (affinity top s aux - affinity b s aux ≤ CLOSENESS_THRESHOLD))).take 2,
          b ∈ rest := fun b hb =>
        (rest.filter_subset') (List.take_subset _ _ hb)
      refine ⟨?_, ?_, ?_, ?_⟩
      · simp only [List.length_map]
        exact List.length_take_le 2 _
      · intro hmem
        obtain ⟨b, hb, hbid⟩ := List.mem_map.mp hmem
        have hbrest : b ∈ rest := htake_mem b hb
        have hnd := ranked_ids_nodup s aux
        rw [heq] at hnd
        simp only [List.map_cons, List.nodup_cons] at hnd
        exact hnd.1 (hbid ▸ List.mem_map_of_mem Archetype.id hbrest)
      · have hs := ranked_sorted s aux
        rw [heq] at hs
        have hrest_s : rest.Pairwise (fun a b => affinity b s aux ≤ affinity a s aux) :=
          (List.sorted_cons.mp hs).2
        have hfil : (rest.filter (fun b =>
            decide (affinity top s aux - affinity b s aux ≤ CLOSENESS_THRESHOLD))).Pairwise
              (fun a b => affinity b s aux ≤ affinity a s aux) :=
          hrest_s.sublist (List.filter_sublist rest)
        have htake := hfil.sublist (List.take_sublist 2 _)
        apply List.pairwise_map.mpr
        exact List.Pairwise.imp_of_mem (fun ha hb hr => by
          rw [archetypeOf_id _ (hrest_mem _ (htake_mem _ ha)),
            archetypeOf_id _ (hrest_mem _ (htake_mem _ hb))]
          exact hr) htake
      · intro i hi
        obtain ⟨b, hb, rfl⟩ := List.mem_map.mp hi
        rw [archetypeOf_id top htop_mem,
          archetypeOf_id b (hrest_mem b (htake_mem b hb))]
        have hbf : b ∈ rest.filter (fun b =>
            decide (affinity top s aux - affinity b s aux ≤ CLOSENESS_THRESHOLD)) :=
          List.take_subset 2 _ hb
        exact of_decide_eq_true (List.mem_filter.mp hbf).2

lemma affinity_at_zero (a : Archetype) (ha : a ∈ archetypeTable) :
    affinity a ⟨0, 0, 0, 0⟩ ⟨none, false⟩ = 0 := by
  fin_cases ha <;> norm_num [affinity, archetypeOf] <;> intro h <;> cases h

lemma logScale_zero (cap : ℝ) : logScale 0 cap = 0 := by
  unfold logScale
  rw [if_pos le_rfl]

lemma burstScore_nil : burstScore [] = 0 := by
  norm_num [burstScore, countValidCommits, validTimes]

lemma compositeIndicator_nil : compositeIndicator [] = 0 := by
  unfold compositeIndicator
  rw [burstScore_nil]
  norm_num [toolDensity, configFilesDetected, CONFIG_VOCAB, containsCI, clamp100]

lemma analyzeCommits_nil : analyzeCommits [] = ⟨.none, [], .low, 0, []⟩ := by
  have hdetect : detectedTools [] = [] := rfl
  have hconfig : configFilesDetected [] = [] := rfl
  have hbucket : bucketOf (0 : ℝ) = .none := by
    unfold bucketOf
    norm_num
  have hlow : confidenceLevelOf [] = .low := by
    unfold confidenceLevelOf
    rw [hdetect, hconfig, burstScore_nil]
    norm_num
  unfold analyzeCommits
  rw [hdetect, hconfig, burstScore_nil, compositeIndicator_nil, hbucket, hlow]

lemma dimensionScores_zero : dimensionScores zeroSignals = ⟨0, 0, 0, 0⟩ := by
  have hact : activityScore zeroSignals = 0 := by
    unfold activityScore recencyTerm
    norm_num [zeroSignals, logScale_zero, clamp100]
  have hcol : collaborationScore zeroSignals = 0 := by
    unfold collaborationScore
    norm_num [zeroSignals, logScale_zero, clamp100]
  have hdiv : stackDiversityScore zeroSignals = 0 := by
    unfold stackDiversityScore
    norm_num [zeroSignals, logScale_zero, clamp100, entropyScore, languageShares]
  have hai : aiSavvinessScore zeroSignals.commits = 0 := by
    have hc : zeroSignals.commits = [] := rfl
    rw [hc]
    unfold aiSavvinessScore
    rw [compositeIndicator_nil]
    norm_num [configFilesDetected, CONFIG_VOCAB, containsCI, clamp100]
  unfold dimensionScores
  rw [hact, hcol, hdiv, hai]

lemma classify_zero : classify ⟨0, 0, 0, 0⟩ ⟨none, false⟩ = fallbackResult := by
  unfold classify
  split
  · rfl
  · rename_i top rest heq
    have htop := affinity_at_zero top (mem_of_mem_ranked (heq ▸ List.mem_cons_self top rest))
    have hlt : affinity top ⟨0, 0, 0, 0⟩ ⟨none, false⟩ < AFFINITY_FLOOR := by
      rw [htop]
      norm_num [AFFINITY_FLOOR]
    rw [if_pos hlt]

/-- C6: the all-zero `ProfileSignals` input (every numeric field zero,
empty language map, empty tag set, empty commit sequence) yields all four
dimension scores equal to zero, the empty AI analysis, and the designated
fallback archetype (`code_explorer`) at minimal confidence; the pipeline
is a total function, so no error is raised. -/
theorem c6_all_zero_input :
    analyzeProfile 0 zeroSignals =
      ⟨⟨0, 0, 0, 0⟩, ⟨.none, [], .low, 0, []⟩,
        ⟨.code_explorer, MIN_CONFIDENCE, []⟩⟩ := by
  unfold analyzeProfile
  rw [show zeroSignals.commits = ([] : List CommitRecord) from rfl,
    show auxOf zeroSignals = ⟨none, false⟩ from rfl,
    dimensionScores_zero, analyzeCommits_nil, classify_zero]
  rfl

theorem c3_alternatives_invariants_witness :
    (classify ⟨0, 0, 0, 0⟩ ⟨none, false⟩).alternatives.length ≤ 2 ∧
      (classify ⟨0, 0, 0, 0⟩ ⟨none, false⟩).archetype ∉
        (classify ⟨0, 0, 0, 0⟩ ⟨none, false⟩).alternatives :=
  ⟨(c3_alternatives_invariants ⟨0, 0, 0, 0⟩ ⟨none, false⟩).1,
    (c3_alternatives_invariants ⟨0, 0, 0, 0⟩ ⟨none, false⟩).2.1⟩

theorem c10_language_chart_safe_witness :
    (topLanguages []).length ≤ 8 ∧ 1 ≤ maxPercentage [] :=
  ⟨(c10_language_chart_safe []).1, (c10_language_chart_safe []).2.2.1⟩

end PhantomScope
